import Mathlib

/-!
Shallow embedding of the tool handlers of the exa-absolute-mcp server
(webset export tools, webset item tools, batch item tools, and the
operation tools for imports and webhooks), together with the host-side
argument validation declared by their zod schemas.  Each handler is
modelled as a pure function from its validated arguments, the two
possible API-key sources, and the outcome of its single HTTP call
(resolved body or thrown error) to the pair of (issued requests, returned
result).
-/

set_option linter.unusedVariables false

namespace ExaMcp

/-- Parsed JSON body attached to a failed HTTP response.  The optional
top-level `error` field is the only field the handlers inspect; the
remaining fields are kept as an opaque key/value payload so that a whole
body can be compared for equality. -/
structure ErrorBody where
  errorField : Option String
  payload : List (String × String)
deriving DecidableEq

/-- The `response` part of an axios error, present when the server answered. -/
structure HttpErrResponse where
  status : Nat
  data : Option ErrorBody
deriving DecidableEq

/-- Model of an axios error value: its `message` plus the optional response. -/
structure AxiosErr where
  message : String
  response : Option HttpErrResponse
deriving DecidableEq

/-- A JavaScript value thrown inside a handler body: an axios error, a plain
`Error` (carrying its message), or any other thrown value (carrying its
`String(error)` rendering). -/
inductive JsErr where
  | axios (e : AxiosErr)
  | error (message : String)
  | nonError (display : String)
deriving DecidableEq

/-- What awaiting the single HTTP call of a handler does: either resolve with
a typed response body or throw. -/
inductive HttpBehavior (α : Type) where
  | ok (body : α)
  | throw (e : JsErr)
deriving DecidableEq

/-- An issued HTTP request as the handlers configure it: method, resolved URL,
headers, the axios `timeout` option when one was set, and the query
parameters.  Request bodies are not modelled; no claim depends on them. -/
structure HttpRequest where
  method : String
  url : String
  headers : List (String × String)
  timeout : Option Nat
  params : List (String × String)
deriving DecidableEq

/-- JavaScript `a || b` where `a` is an optional string: `b` is used when `a`
is absent or falsy (the empty string is falsy). -/
def jsOrStr (a : Option String) (b : String) : String :=
  match a with
  | none => b
  | some s => if s = "" then b else s

/-- The expression `config?.exaApiKey || process.env.EXA_API_KEY || ''` used
by every handler to fill the `x-api-key` header. -/
def resolveApiKey (cfgKey envKey : Option String) : String :=
  jsOrStr cfgKey (jsOrStr envKey "")

/-- Modelled from the spec: `API_CONFIG.REQUEST_TIMEOUT`, the fixed request
timeout of the configuration module (that module's file is not among the
embedded sources); the claims depend only on it being one fixed constant. -/
def REQUEST_TIMEOUT : Nat := 25000

/-- Modelled from the spec: `API_CONFIG.BASE_URL` of the remote API. -/
def BASE_URL : String := "https://api.exa.ai/websets/v0"

/-- Modelled from the spec: path template of `API_CONFIG.ENDPOINTS.WEBSET_EXPORTS`
(section 6 endpoint table of the spec). -/
def EP_WEBSET_EXPORTS : String := "/websets/:websetId/exports"

/-- Modelled from the spec: path template of `API_CONFIG.ENDPOINTS.WEBSET_ITEMS`. -/
def EP_WEBSET_ITEMS : String := "/websets/:websetId/items"

/-- Modelled from the spec: path of `API_CONFIG.ENDPOINTS.IMPORTS`. -/
def EP_IMPORTS : String := "/imports"

/-- Modelled from the spec: path of `API_CONFIG.ENDPOINTS.WEBHOOKS`. -/
def EP_WEBHOOKS : String := "/webhooks"

/-- Worker for `replaceFirst` on character lists. -/
def replaceFirstAux (pat repl : List Char) : List Char → List Char
  | [] => []
  | c :: cs =>
      if pat.isPrefixOf (c :: cs) then repl ++ (c :: cs).drop pat.length
      else c :: replaceFirstAux pat repl cs

/-- JavaScript `String.prototype.replace` with a string pattern substitutes
only the first occurrence; the templates used here contain each placeholder
once. -/
def replaceFirst (s pat repl : String) : String :=
  String.mk (replaceFirstAux pat.data repl.data s.data)

/-- One compiled token of the modelled JavaScript regular-expression subset:
a literal character or the `.` wildcard.  The handlers feed the patterns to
`new RegExp(pattern, 'i')` followed by `.test`; the subset modelled here
covers literal characters, backslash escapes and `.`, with a leading `^`
handled at compile time.  Other metacharacters are treated as literals. -/
inductive RTok where
  | lit (c : Char)
  | anyChar
deriving DecidableEq

/-- Token list of a pattern body; `none` when the pattern is syntactically
invalid (a dangling trailing backslash), in which case `new RegExp` throws. -/
def tokenize : List Char → Option (List RTok)
  | [] => some []
  | '\\' :: [] => none
  | '\\' :: c :: rest => (tokenize rest).map (fun ts => RTok.lit c :: ts)
  | '.' :: rest => (tokenize rest).map (fun ts => RTok.anyChar :: ts)
  | c :: rest => (tokenize rest).map (fun ts => RTok.lit c :: ts)

/-- Character comparison; under the `i` flag both sides are compared
lower-cased. -/
def charMatches (ci : Bool) (p c : Char) : Bool :=
  if ci then p.toLower == c.toLower else p == c

/-- Match a token list against the subject starting at its head. -/
def matchToks (ci : Bool) : List RTok → List Char → Bool
  | [], _ => true
  | RTok.lit p :: ts, c :: cs => charMatches ci p c && matchToks ci ts cs
  | RTok.lit _ :: _, [] => false
  | RTok.anyChar :: ts, _ :: cs => matchToks ci ts cs
  | RTok.anyChar :: _, [] => false

/-- Unanchored search: try to match at every start position of the subject. -/
def matchFrom (ci : Bool) (ts : List RTok) : List Char → Bool
  | [] => matchToks ci ts []
  | c :: cs => matchToks ci ts (c :: cs) || matchFrom ci ts cs

/-- Compile a pattern string as `new RegExp` does on the modelled subset: a
leading `^` anchors the match at the start, the rest is tokenized. -/
def jsRegexCompile (pattern : String) : Option (Bool × List RTok) :=
  match pattern.data with
  | '^' :: ps => (tokenize ps).map (fun ts => (true, ts))
  | ps => (tokenize ps).map (fun ts => (false, ts))

/-- A pattern is valid when `new RegExp(pattern)` would not throw. -/
def regexValid (pattern : String) : Bool :=
  (jsRegexCompile pattern).isSome

/-- `new RegExp(pattern, ci ? 'i' : '').test s` on the modelled subset. -/
def jsRegexTest (pattern : String) (ci : Bool) (s : String) : Bool :=
  match jsRegexCompile pattern with
  | none => false
  | some (true, ts) => matchToks ci ts s.data
  | some (false, ts) => matchFrom ci ts s.data

/-- The fields of a webset item that the embedded handlers read: `url` is
always a string, `title` may be absent or null.  Passthrough fields the
handlers copy verbatim (verification, enrichment, metadata, timestamps) are
elided. -/
structure WebsetItem where
  id : String
  url : String
  title : Option String
deriving DecidableEq

/-- A paginated page of items as returned by the server. -/
structure ItemsPage where
  data : List WebsetItem
  hasMore : Bool
  nextCursor : Option String
deriving DecidableEq

/-- An export job as returned by the server. -/
structure Export where
  id : String
  status : String
deriving DecidableEq

/-- A paginated page of export jobs. -/
structure ExportsPage where
  data : List Export
  hasMore : Bool
  nextCursor : Option String
deriving DecidableEq

/-- An import job as returned by the server. -/
structure ImportJob where
  id : String
  status : String
deriving DecidableEq

/-- A paginated page of import jobs. -/
structure ImportsPage where
  data : List ImportJob
  hasMore : Bool
  nextCursor : Option String
deriving DecidableEq

/-- A webhook as returned by the server. -/
structure Webhook where
  id : String
deriving DecidableEq

/-- Opaque JSON value used where a handler forwards a response body it never
inspects. -/
abbrev OpaqueJson := List (String × String)

/-- Result shape of the `addTool`-style handlers (export tools and batch item
tools): a plain object with a `success` flag; on failure an `error` string
and, in the axios branch only, a `details` field holding
`error.response?.data`. -/
inductive EnvResult (α : Type) where
  | success (payload : α)
  | failure (error : String) (details : Option ErrorBody)
deriving DecidableEq

/-- Result shape of the `server.tool`-style handlers: a single text content
block.  `ok` carries the structured value that the handler passes to
`JSON.stringify`; `err` carries the error text together with the
`isError: true` flag. -/
inductive McpOut (α : Type) where
  | ok (payload : α)
  | err (text : String)
deriving DecidableEq

/-- The `catch` block shared by every `addTool`-style handler: the
`isAxiosError` branch builds `error` from `error.response?.data?.error ||
error.message` and sets `details` to `error.response?.data`; otherwise the
message of an `Error`, or the literal fallback text, becomes `error` and no
`details` field is produced. -/
def envCatch {α : Type} (e : JsErr) : EnvResult α :=
  match e with
  | JsErr.axios a =>
      EnvResult.failure
        (jsOrStr ((a.response.bind HttpErrResponse.data).bind ErrorBody.errorField) a.message)
        (a.response.bind HttpErrResponse.data)
  | JsErr.error m => EnvResult.failure m none
  | JsErr.nonError _ => EnvResult.failure "Unknown error occurred" none

/-- `error.response?.status || 'unknown'` as rendered by the item-tool catch
blocks (`0` is falsy in JavaScript). -/
def statusDisplay (r : Option HttpErrResponse) : String :=
  match r with
  | none => "unknown"
  | some resp => if resp.status == 0 then "unknown" else toString resp.status

/-- The `catch` block of the webset-item tools: the axios branch embeds the
status display and the body error field (falling back to `error.message`);
otherwise the message or the `String(error)` rendering is embedded. -/
def mcpCatch (label : String) (e : JsErr) : String :=
  match e with
  | JsErr.axios a =>
      label ++ " error (" ++ statusDisplay a.response ++ "): " ++
        jsOrStr ((a.response.bind HttpErrResponse.data).bind ErrorBody.errorField) a.message
  | JsErr.error m => label ++ " error: " ++ m
  | JsErr.nonError d => label ++ " error: " ++ d

/-- The `catch` block of the operation tools (imports, monitors, webhooks,
events): only `error.message` (or the `String(error)` rendering) is embedded;
the response body is never inspected.  An axios error is an `Error` instance,
so its `message` is used. -/
def mcpSimpleCatch (label : String) (e : JsErr) : String :=
  match e with
  | JsErr.axios a => label ++ " error: " ++ a.message
  | JsErr.error m => label ++ " error: " ++ m
  | JsErr.nonError d => label ++ " error: " ++ d

/-- The handler boundary of an `addTool`-style handler: a resolved body gives
the success object, a thrown error is caught and converted. -/
def finishEnv {α : Type} (body : Except JsErr α) : EnvResult α :=
  match body with
  | Except.ok p => EnvResult.success p
  | Except.error e => envCatch e

/-- The handler boundary of a webset-item tool. -/
def finishMcp {α : Type} (label : String) (body : Except JsErr α) : McpOut α :=
  match body with
  | Except.ok p => McpOut.ok p
  | Except.error e => McpOut.err (mcpCatch label e)

/-- The handler boundary of an operation tool. -/
def finishMcpSimple {α : Type} (label : String) (body : Except JsErr α) : McpOut α :=
  match body with
  | Except.ok p => McpOut.ok p
  | Except.error e => McpOut.err (mcpSimpleCatch label e)

/-- `if (v) params.append(key, v)` for a string-valued optional argument
(JavaScript truthiness: absent and empty string are both skipped). -/
def optParamStr (key : String) (v : Option String) : List (String × String) :=
  match v with
  | none => []
  | some s => if s = "" then [] else [(key, s)]

/-- `if (v) params.append(key, v.toString())` for a numeric optional argument
(`0` is falsy and skipped). -/
def optParamNat (key : String) (v : Option Nat) : List (String × String) :=
  match v with
  | none => []
  | some n => if n = 0 then [] else [(key, toString n)]

/-- `if (v !== undefined) params.append(key, v.toString())` for a boolean
optional argument; note that `false` is serialized. -/
def optParamBool (key : String) (v : Option Bool) : List (String × String) :=
  match v with
  | none => []
  | some b => [(key, if b then "true" else "false")]

/-- `Object.entries(kvs).forEach(([k, v]) => params.append(base + k, v))`. -/
def dottedParams (base : String) (kvs : Option (List (String × String))) :
    List (String × String) :=
  match kvs with
  | none => []
  | some l => l.map (fun kv => (base ++ kv.1, kv.2))

/-- Validated nested filters of `create_export_exa`. -/
structure ExportFilters where
  itemIds : Option (List String) := none
  verificationStatus : Option String := none
  hasEnrichedData : Option Bool := none
  itemType : Option String := none
deriving DecidableEq

/-- Validated arguments of `create_export_exa`. -/
structure CreateExportArgs where
  websetId : String
  format : String
  filters : Option ExportFilters := none
  fields : Option (List String) := none
deriving DecidableEq

/-- The single request `create_export_exa` issues: a bare `axios.post` with
three headers and no `timeout` option. -/
def createExportRequest (args : CreateExportArgs) (cfgKey envKey : Option String) :
    HttpRequest :=
  { method := "POST"
  , url := BASE_URL ++ replaceFirst EP_WEBSET_EXPORTS ":websetId" args.websetId
  , headers := [("accept", "application/json"), ("content-type", "application/json"),
      ("x-api-key", resolveApiKey cfgKey envKey)]
  , timeout := none
  , params := [] }

/-- The try-block of `create_export_exa` after the request is issued. -/
def createExportBody (beh : HttpBehavior Export) : Except JsErr (Export × String) :=
  match beh with
  | HttpBehavior.ok e =>
      Except.ok (e, "Export created successfully. Status: " ++ e.status)
  | HttpBehavior.throw e => Except.error e

/-- The full `create_export_exa` handler: issued requests and returned value. -/
def createExportRun (args : CreateExportArgs) (cfgKey envKey : Option String)
    (beh : HttpBehavior Export) : List HttpRequest × EnvResult (Export × String) :=
  ([createExportRequest args cfgKey envKey], finishEnv (createExportBody beh))

/-- Validated arguments of `list_exports_exa` (the zod schema defaults `limit`
to `20`). -/
structure ListExportsArgs where
  websetId : String
  limit : Nat
  cursor : Option String := none
deriving DecidableEq

/-- The status-count summary computed by `list_exports_exa`. -/
structure ExportSummary where
  total : Nat
  completed : Nat
  pending : Nat
  processing : Nat
  failed : Nat
deriving DecidableEq

/-- Success payload of `list_exports_exa`. -/
structure ListExportsOut where
  data : List Export
  hasMore : Bool
  nextCursor : Option String
  summary : ExportSummary
deriving DecidableEq

/-- `{ limit }` is always sent; `cursor` only when truthy. -/
def listExportsParams (args : ListExportsArgs) : List (String × String) :=
  [("limit", toString args.limit)] ++ optParamStr "cursor" args.cursor

/-- The single request `list_exports_exa` issues: bare `axios.get`, no timeout. -/
def listExportsRequest (args : ListExportsArgs) (cfgKey envKey : Option String) :
    HttpRequest :=
  { method := "GET"
  , url := BASE_URL ++ replaceFirst EP_WEBSET_EXPORTS ":websetId" args.websetId
  , headers := [("accept", "application/json"), ("x-api-key", resolveApiKey cfgKey envKey)]
  , timeout := none
  , params := listExportsParams args }

/-- The summary object built by filtering the page data once per status. -/
def exportSummary (l : List Export) : ExportSummary :=
  { total := l.length
  , completed := (l.filter (fun e => e.status == "completed")).length
  , pending := (l.filter (fun e => e.status == "pending")).length
  , processing := (l.filter (fun e => e.status == "processing")).length
  , failed := (l.filter (fun e => e.status == "failed")).length }

/-- The try-block of `list_exports_exa` after the request. -/
def listExportsBody (beh : HttpBehavior ExportsPage) : Except JsErr ListExportsOut :=
  match beh with
  | HttpBehavior.ok page =>
      Except.ok
        { data := page.data, hasMore := page.hasMore,
          nextCursor := page.nextCursor, summary := exportSummary page.data }
  | HttpBehavior.throw e => Except.error e

/-- The full `list_exports_exa` handler. -/
def listExportsRun (args : ListExportsArgs) (cfgKey envKey : Option String)
    (beh : HttpBehavior ExportsPage) : List HttpRequest × EnvResult ListExportsOut :=
  ([listExportsRequest args cfgKey envKey], finishEnv (listExportsBody beh))

/-- Validated arguments of `list_webset_items_exa`. -/
structure ListItemsArgs where
  websetId : String
  cursor : Option String := none
  limit : Option Nat := none
  type : Option String := none
  verificationStatus : Option String := none
  hasEnrichedData : Option Bool := none
  createdAfter : Option String := none
  createdBefore : Option String := none
  updatedAfter : Option String := none
  updatedBefore : Option String := none
deriving DecidableEq

/-- The `URLSearchParams` built by `list_webset_items_exa`, in source order. -/
def listItemsParams (a : ListItemsArgs) : List (String × String) :=
  optParamStr "cursor" a.cursor ++ optParamNat "limit" a.limit ++
  optParamStr "type" a.type ++ optParamStr "verificationStatus" a.verificationStatus ++
  optParamBool "hasEnrichedData" a.hasEnrichedData ++
  optParamStr "createdAfter" a.createdAfter ++ optParamStr "createdBefore" a.createdBefore ++
  optParamStr "updatedAfter" a.updatedAfter ++ optParamStr "updatedBefore" a.updatedBefore

/-- The single request `list_webset_items_exa` issues through its dedicated
`axios.create` instance: two headers and the fixed timeout. -/
def listItemsRequest (a : ListItemsArgs) (cfgKey envKey : Option String) : HttpRequest :=
  { method := "GET"
  , url := BASE_URL ++ replaceFirst EP_WEBSET_ITEMS ":websetId" a.websetId
  , headers := [("accept", "application/json"), ("x-api-key", resolveApiKey cfgKey envKey)]
  , timeout := some REQUEST_TIMEOUT
  , params := listItemsParams a }

/-- The `formattedResult` object of `list_webset_items_exa` (item projection
elided: the projected fields are exactly the modelled ones). -/
structure ListItemsOut where
  websetId : String
  itemCount : Nat
  hasMore : Bool
  nextCursor : Option String
  items : List WebsetItem
deriving DecidableEq

/-- The try-block of `list_webset_items_exa` after the request. -/
def listItemsBody (wsid : String) (beh : HttpBehavior ItemsPage) :
    Except JsErr ListItemsOut :=
  match beh with
  | HttpBehavior.ok page =>
      Except.ok
        { websetId := wsid, itemCount := page.data.length,
          hasMore := page.hasMore, nextCursor := page.nextCursor, items := page.data }
  | HttpBehavior.throw e => Except.error e

/-- The full `list_webset_items_exa` handler. -/
def listItemsRun (a : ListItemsArgs) (cfgKey envKey : Option String)
    (beh : HttpBehavior ItemsPage) : List HttpRequest × McpOut ListItemsOut :=
  ([listItemsRequest a cfgKey envKey], finishMcp "List items" (listItemsBody a.websetId beh))

/-- Validated nested filters of `search_webset_items_exa`. -/
structure SearchFilters where
  type : Option String := none
  verificationStatus : Option String := none
  hasEnrichedData : Option Bool := none
  enrichmentStatus : Option (List (String × String)) := none
  createdAfter : Option String := none
  createdBefore : Option String := none
  updatedAfter : Option String := none
  updatedBefore : Option String := none
  metadata : Option (List (String × String)) := none
  urlPattern : Option String := none
  titlePattern : Option String := none
deriving DecidableEq

/-- Validated arguments of `search_webset_items_exa`. -/
structure SearchItemsArgs where
  websetId : String
  filters : Option SearchFilters := none
  cursor : Option String := none
  limit : Option Nat := none
deriving DecidableEq

/-- The `URLSearchParams` built by `search_webset_items_exa`, in source order;
absent `filters` behaves as the all-absent filter object. -/
def searchItemsParams (a : SearchItemsArgs) : List (String × String) :=
  let f := a.filters.getD {}
  optParamStr "cursor" a.cursor ++ optParamNat "limit" a.limit ++
  optParamStr "type" f.type ++ optParamStr "verificationStatus" f.verificationStatus ++
  optParamBool "hasEnrichedData" f.hasEnrichedData ++
  optParamStr "createdAfter" f.createdAfter ++ optParamStr "createdBefore" f.createdBefore ++
  optParamStr "updatedAfter" f.updatedAfter ++ optParamStr "updatedBefore" f.updatedBefore ++
  dottedParams "metadata." f.metadata ++ dottedParams "enrichmentStatus." f.enrichmentStatus

/-- The URL-pattern test applied to an item: `urlRegex.test(item.url)` with
the `i` flag. -/
def urlPatternPred (p : String) (it : WebsetItem) : Bool :=
  jsRegexTest p true it.url

/-- The title-pattern test applied to an item:
`item.title && titleRegex.test(item.title)` — a missing, null or empty title
is falsy and therefore excluded. -/
def titlePatternPred (p : String) (it : WebsetItem) : Bool :=
  match it.title with
  | none => false
  | some t => !(t == "") && jsRegexTest p true t

/-- `if (filters?.urlPattern) { const urlRegex = new RegExp(p, 'i'); ... }`:
a falsy (absent or empty) pattern skips the filter; an invalid pattern makes
the `RegExp` constructor throw inside the try-block. -/
def applyUrlFilter (up : Option String) (items : List WebsetItem) :
    Except JsErr (List WebsetItem) :=
  match up with
  | none => Except.ok items
  | some p =>
      if p = "" then Except.ok items
      else if regexValid p then Except.ok (items.filter (urlPatternPred p))
      else Except.error (JsErr.error ("Invalid regular expression: " ++ p))

/-- The analogous title-pattern step. -/
def applyTitleFilter (tp : Option String) (items : List WebsetItem) :
    Except JsErr (List WebsetItem) :=
  match tp with
  | none => Except.ok items
  | some p =>
      if p = "" then Except.ok items
      else if regexValid p then Except.ok (items.filter (titlePatternPred p))
      else Except.error (JsErr.error ("Invalid regular expression: " ++ p))

/-- The `formattedResult` object of `search_webset_items_exa` (per-item
projection elided as in `ListItemsOut`). -/
structure SearchItemsOut where
  websetId : String
  matchingItems : Nat
  hasMore : Bool
  nextCursor : Option String
  filters : Option SearchFilters
  items : List WebsetItem
deriving DecidableEq

/-- The try-block of `search_webset_items_exa`: after the request resolves,
the URL filter and then the title filter are applied locally to the fetched
page; `hasMore` and `nextCursor` are copied from the server response. -/
def searchItemsBody (a : SearchItemsArgs) (beh : HttpBehavior ItemsPage) :
    Except JsErr SearchItemsOut :=
  match beh with
  | HttpBehavior.throw e => Except.error e
  | HttpBehavior.ok page =>
      match applyUrlFilter (a.filters.getD {}).urlPattern page.data with
      | Except.error e => Except.error e
      | Except.ok items1 =>
          match applyTitleFilter (a.filters.getD {}).titlePattern items1 with
          | Except.error e => Except.error e
          | Except.ok items2 =>
              Except.ok
                { websetId := a.websetId, matchingItems := items2.length,
                  hasMore := page.hasMore, nextCursor := page.nextCursor,
                  filters := a.filters, items := items2 }

/-- The single request `search_webset_items_exa` issues. -/
def searchItemsRequest (a : SearchItemsArgs) (cfgKey envKey : Option String) :
    HttpRequest :=
  { method := "GET"
  , url := BASE_URL ++ replaceFirst EP_WEBSET_ITEMS ":websetId" a.websetId
  , headers := [("accept", "application/json"), ("x-api-key", resolveApiKey cfgKey envKey)]
  , timeout := some REQUEST_TIMEOUT
  , params := searchItemsParams a }

/-- The full `search_webset_items_exa` handler. -/
def searchItemsRun (a : SearchItemsArgs) (cfgKey envKey : Option String)
    (beh : HttpBehavior ItemsPage) : List HttpRequest × McpOut SearchItemsOut :=
  ([searchItemsRequest a cfgKey envKey], finishMcp "Search items" (searchItemsBody a beh))

/-- The item list of a webset-item tool result (empty on an error result). -/
def mcpItems (r : McpOut SearchItemsOut) : List WebsetItem :=
  match r with
  | McpOut.ok o => o.items
  | McpOut.err _ => []

/-- Validated arguments of `batch_update_items_exa`; the `updates` payload
only enters the request body, which is not modelled. -/
structure BatchUpdateArgs where
  websetId : String
  itemIds : List String
deriving DecidableEq

/-- Validated arguments of `batch_delete_items_exa`. -/
structure BatchDeleteArgs where
  websetId : String
  itemIds : List String
deriving DecidableEq

/-- Validated arguments of `batch_verify_items_exa`; `status` and `reasoning`
only enter the request body. -/
structure BatchVerifyArgs where
  websetId : String
  itemIds : List String
  status : String
  reasoning : Option String := none
deriving DecidableEq

/-- The single request a batch tool issues: one bare `axios.post` to the
batch endpoint, whatever the number of item ids; three headers, no timeout. -/
def batchRequest (endpointSuffix : String) (wsid : String)
    (cfgKey envKey : Option String) : HttpRequest :=
  { method := "POST"
  , url := BASE_URL ++ replaceFirst (EP_WEBSET_ITEMS ++ endpointSuffix) ":websetId" wsid
  , headers := [("accept", "application/json"), ("content-type", "application/json"),
      ("x-api-key", resolveApiKey cfgKey envKey)]
  , timeout := none
  , params := [] }

/-- The try-block of `batch_update_items_exa`: the success message reports
`itemIds.length` without inspecting the response data. -/
def batchUpdateBody (itemIds : List String) (beh : HttpBehavior OpaqueJson) :
    Except JsErr (OpaqueJson × String) :=
  match beh with
  | HttpBehavior.ok d =>
      Except.ok (d, "Successfully updated " ++ toString itemIds.length ++ " items")
  | HttpBehavior.throw e => Except.error e

/-- The full `batch_update_items_exa` handler. -/
def batchUpdateRun (a : BatchUpdateArgs) (cfgKey envKey : Option String)
    (beh : HttpBehavior OpaqueJson) :
    List HttpRequest × EnvResult (OpaqueJson × String) :=
  ([batchRequest "/batch-update" a.websetId cfgKey envKey],
   finishEnv (batchUpdateBody a.itemIds beh))

/-- The try-block of `batch_delete_items_exa`. -/
def batchDeleteBody (itemIds : List String) (beh : HttpBehavior OpaqueJson) :
    Except JsErr (OpaqueJson × String) :=
  match beh with
  | HttpBehavior.ok d =>
      Except.ok (d, "Successfully deleted " ++ toString itemIds.length ++ " items")
  | HttpBehavior.throw e => Except.error e

/-- The full `batch_delete_items_exa` handler. -/
def batchDeleteRun (a : BatchDeleteArgs) (cfgKey envKey : Option String)
    (beh : HttpBehavior OpaqueJson) :
    List HttpRequest × EnvResult (OpaqueJson × String) :=
  ([batchRequest "/batch-delete" a.websetId cfgKey envKey],
   finishEnv (batchDeleteBody a.itemIds beh))

/-- The try-block of `batch_verify_items_exa`. -/
def batchVerifyBody (itemIds : List String) (beh : HttpBehavior OpaqueJson) :
    Except JsErr (OpaqueJson × String) :=
  match beh with
  | HttpBehavior.ok d =>
      Except.ok (d, "Successfully updated verification status for " ++
        toString itemIds.length ++ " items")
  | HttpBehavior.throw e => Except.error e

/-- The full `batch_verify_items_exa` handler. -/
def batchVerifyRun (a : BatchVerifyArgs) (cfgKey envKey : Option String)
    (beh : HttpBehavior OpaqueJson) :
    List HttpRequest × EnvResult (OpaqueJson × String) :=
  ([batchRequest "/batch-verify" a.websetId cfgKey envKey],
   finishEnv (batchVerifyBody a.itemIds beh))

/-- Validated arguments of `create_import_exa`. -/
structure CreateImportArgs where
  sourceUrl : String
  fileType : Option String := none
  websetId : Option String := none
  metadata : Option (List (String × String)) := none
deriving DecidableEq

/-- The single request `create_import_exa` issues through its dedicated
`axios.create` instance: three headers and the fixed timeout. -/
def createImportRequest (cfgKey envKey : Option String) : HttpRequest :=
  { method := "POST"
  , url := BASE_URL ++ EP_IMPORTS
  , headers := [("accept", "application/json"), ("content-type", "application/json"),
      ("x-api-key", resolveApiKey cfgKey envKey)]
  , timeout := some REQUEST_TIMEOUT
  , params := [] }

/-- The try-block of `create_import_exa`. -/
def createImportBody (beh : HttpBehavior ImportJob) : Except JsErr ImportJob :=
  match beh with
  | HttpBehavior.ok i => Except.ok i
  | HttpBehavior.throw e => Except.error e

/-- The full `create_import_exa` handler; its catch block never inspects the
response body. -/
def createImportRun (a : CreateImportArgs) (cfgKey envKey : Option String)
    (beh : HttpBehavior ImportJob) : List HttpRequest × McpOut ImportJob :=
  ([createImportRequest cfgKey envKey], finishMcpSimple "Create import" (createImportBody beh))

/-- Validated arguments of `list_imports_exa`. -/
structure ListImportsArgs where
  status : Option String := none
  websetId : Option String := none
  cursor : Option String := none
  limit : Option Nat := none
deriving DecidableEq

/-- The `URLSearchParams` built by `list_imports_exa`, in source order. -/
def listImportsParams (a : ListImportsArgs) : List (String × String) :=
  optParamStr "status" a.status ++ optParamStr "websetId" a.websetId ++
  optParamStr "cursor" a.cursor ++ optParamNat "limit" a.limit

/-- The single request `list_imports_exa` issues. -/
def listImportsRequest (a : ListImportsArgs) (cfgKey envKey : Option String) :
    HttpRequest :=
  { method := "GET"
  , url := BASE_URL ++ EP_IMPORTS
  , headers := [("accept", "application/json"), ("x-api-key", resolveApiKey cfgKey envKey)]
  , timeout := some REQUEST_TIMEOUT
  , params := listImportsParams a }

/-- The try-block of `list_imports_exa` (the response page is stringified
as-is). -/
def listImportsBody (beh : HttpBehavior ImportsPage) : Except JsErr ImportsPage :=
  match beh with
  | HttpBehavior.ok page => Except.ok page
  | HttpBehavior.throw e => Except.error e

/-- The full `list_imports_exa` handler. -/
def listImportsRun (a : ListImportsArgs) (cfgKey envKey : Option String)
    (beh : HttpBehavior ImportsPage) : List HttpRequest × McpOut ImportsPage :=
  ([listImportsRequest a cfgKey envKey], finishMcpSimple "List imports" (listImportsBody beh))

/-- Validated arguments of `create_webhook_exa`. -/
structure CreateWebhookArgs where
  url : String
  events : List String
  description : Option String := none
  secret : Option String := none
deriving DecidableEq

/-- The single request `create_webhook_exa` issues. -/
def createWebhookRequest (cfgKey envKey : Option String) : HttpRequest :=
  { method := "POST"
  , url := BASE_URL ++ EP_WEBHOOKS
  , headers := [("accept", "application/json"), ("content-type", "application/json"),
      ("x-api-key", resolveApiKey cfgKey envKey)]
  , timeout := some REQUEST_TIMEOUT
  , params := [] }

/-- The try-block of `create_webhook_exa`. -/
def createWebhookBody (beh : HttpBehavior Webhook) : Except JsErr Webhook :=
  match beh with
  | HttpBehavior.ok w => Except.ok w
  | HttpBehavior.throw e => Except.error e

/-- The full `create_webhook_exa` handler. -/
def createWebhookRun (a : CreateWebhookArgs) (cfgKey envKey : Option String)
    (beh : HttpBehavior Webhook) : List HttpRequest × McpOut Webhook :=
  ([createWebhookRequest cfgKey envKey], finishMcpSimple "Create webhook" (createWebhookBody beh))

/-- The closed set of the `format` enum of `create_export_exa`. -/
def exportFormats : List String := ["csv", "json", "xlsx"]

/-- The closed set of the `verificationStatus` enum. -/
def verificationStatuses : List String := ["verified", "pending", "failed"]

/-- The closed set of the `events` enum of `create_webhook_exa`. -/
def createWebhookEvents : List String :=
  ["webset.created", "webset.deleted", "webset.paused", "webset.idle",
   "webset.search.created", "webset.search.completed", "webset.search.canceled",
   "webset.item.created", "webset.item.enriched",
   "import.created", "import.completed",
   "webset.monitor.run.started", "webset.monitor.run.completed"]

/-- Raw (pre-validation) nested filters of `create_export_exa`: enumerated
fields arrive as plain strings. -/
structure RawExportFilters where
  itemIds : Option (List String) := none
  verificationStatus : Option String := none
  hasEnrichedData : Option Bool := none
  itemType : Option String := none
deriving DecidableEq

/-- Raw (pre-validation) arguments of `create_export_exa`: required fields may
be absent. -/
structure CreateExportRaw where
  websetId : Option String := none
  format : Option String := none
  filters : Option RawExportFilters := none
  fields : Option (List String) := none
deriving DecidableEq

/-- Validation of the nested filter object against its zod shape. -/
def parseExportFilters (f : RawExportFilters) : Option ExportFilters :=
  match f.verificationStatus with
  | none =>
      some
        { itemIds := f.itemIds, verificationStatus := none,
          hasEnrichedData := f.hasEnrichedData, itemType := f.itemType }
  | some vs =>
      if verificationStatuses.contains vs then
        some
          { itemIds := f.itemIds, verificationStatus := some vs,
            hasEnrichedData := f.hasEnrichedData, itemType := f.itemType }
      else none

/-- Validation of `create_export_exa` arguments against `createExportSchema`:
`websetId` and `format` are required, `format` must be in the closed enum,
and a present filter object must itself validate. -/
def parseCreateExport (raw : CreateExportRaw) : Option CreateExportArgs :=
  match raw.websetId, raw.format with
  | some w, some fmt =>
      if exportFormats.contains fmt then
        match raw.filters with
        | none => some { websetId := w, format := fmt, filters := none, fields := raw.fields }
        | some rf =>
            match parseExportFilters rf with
            | none => none
            | some pf =>
                some { websetId := w, format := fmt, filters := some pf, fields := raw.fields }
      else none
  | _, _ => none

/-- Raw (pre-validation) arguments of `create_webhook_exa`. -/
structure CreateWebhookRaw where
  url : Option String := none
  events : Option (List String) := none
  description : Option String := none
  secret : Option String := none
deriving DecidableEq

/-- Validation of `create_webhook_exa` arguments: `url` and `events` are
required and every event must belong to the closed enum. -/
def parseCreateWebhook (raw : CreateWebhookRaw) : Option CreateWebhookArgs :=
  match raw.url, raw.events with
  | some u, some evs =>
      if evs.all (fun ev => createWebhookEvents.contains ev) then
        some { url := u, events := evs, description := raw.description, secret := raw.secret }
      else none
  | _, _ => none

/-- Raw (pre-validation) arguments of `list_exports_exa`. -/
structure ListExportsRaw where
  websetId : Option String := none
  limit : Option Nat := none
  cursor : Option String := none
deriving DecidableEq

/-- Validation of `list_exports_exa` arguments: `websetId` is required and the
zod schema fills `limit` with its default `20` when absent. -/
def parseListExports (raw : ListExportsRaw) : Option ListExportsArgs :=
  match raw.websetId with
  | none => none
  | some w => some { websetId := w, limit := raw.limit.getD 20, cursor := raw.cursor }

/-- Modelled from the spec: the host validates the arguments against the
declared zod shape before the handler runs (the dispatch that performs this
check lives outside the embedded sources); on failure a validation-error
envelope is produced and the handler — hence any HTTP request — is never
invoked. -/
inductive Invoked (ρ : Type) where
  | validationError
  | result (r : ρ)
deriving DecidableEq

/-- Full invocation of `create_export_exa`: validation gate then handler. -/
def invokeCreateExport (raw : CreateExportRaw) (cfgKey envKey : Option String)
    (beh : HttpBehavior Export) :
    List HttpRequest × Invoked (EnvResult (Export × String)) :=
  match parseCreateExport raw with
  | none => ([], Invoked.validationError)
  | some args =>
      ((createExportRun args cfgKey envKey beh).1,
       Invoked.result (createExportRun args cfgKey envKey beh).2)

/-- Full invocation of `create_webhook_exa`: validation gate then handler. -/
def invokeCreateWebhook (raw : CreateWebhookRaw) (cfgKey envKey : Option String)
    (beh : HttpBehavior Webhook) : List HttpRequest × Invoked (McpOut Webhook) :=
  match parseCreateWebhook raw with
  | none => ([], Invoked.validationError)
  | some args =>
      ((createWebhookRun args cfgKey envKey beh).1,
       Invoked.result (createWebhookRun args cfgKey envKey beh).2)

/-- The error-envelope shape the spec prescribes for a remote error carrying a
body: `success: false` together with `error` and `details` fields. -/
structure RemoteErrorEnvelope where
  error : String
  details : Option ErrorBody
deriving DecidableEq

/-- Extract the prescribed error-envelope shape from an `addTool`-style
result: present exactly on its failure branch. -/
def envErrorEnvelope {α : Type} : EnvResult α → Option RemoteErrorEnvelope
  | EnvResult.failure e d => some { error := e, details := d }
  | EnvResult.success _ => none

/-- A `server.tool`-style result is a `content`/`isError` object; it has no
`success`, `error` or `details` fields, so no outcome of that family ever
exposes the prescribed envelope shape. -/
def mcpErrorEnvelope {α : Type} (r : McpOut α) : Option RemoteErrorEnvelope := none

/-- The error flag of an `addTool`-style result. -/
def envIsError {α : Type} : EnvResult α → Bool
  | EnvResult.success _ => false
  | EnvResult.failure _ _ => true

/-- The `isError` flag of a `server.tool`-style result. -/
def mcpIsError {α : Type} : McpOut α → Bool
  | McpOut.ok _ => false
  | McpOut.err _ => true

/-- Whether a modelled try-block threw. -/
def exceptThrew {α : Type} : Except JsErr α → Bool
  | Except.ok _ => false
  | Except.error _ => true

/-- The serialized value an `if (v) append` string filter contributes. -/
def strFilterVal (v : Option String) : Option String :=
  match v with
  | none => none
  | some s => if s = "" then none else some s

/-- The serialized value an `if (v) append` numeric filter contributes. -/
def natFilterVal (v : Option Nat) : Option String :=
  match v with
  | none => none
  | some n => if n = 0 then none else some (toString n)

/-- The serialized value the `!== undefined` boolean filter contributes. -/
def boolFilterVal (v : Option Bool) : Option String :=
  match v with
  | none => none
  | some b => some (if b then "true" else "false")

/-- First-wins choice on optional values, used to describe `lookup` over an
appended parameter list. -/
def optOr (a b : Option String) : Option String :=
  match a with
  | some v => some v
  | none => b

end ExaMcp

namespace ExaMcp

/-- The error flag of an `addTool`-style handler result is set exactly when
its try-block threw. -/
theorem envIsError_finishEnv {α : Type} (b : Except JsErr α) :
    envIsError (finishEnv b) = exceptThrew b := by
  cases b with
  | ok p => rfl
  | error e => cases e <;> rfl

/-- The `isError` flag of a webset-item tool result is set exactly when its
try-block threw. -/
theorem mcpIsError_finishMcp {α : Type} (label : String) (b : Except JsErr α) :
    mcpIsError (finishMcp label b) = exceptThrew b := by
  cases b <;> rfl

/-- The `isError` flag of an operation tool result is set exactly when its
try-block threw. -/
theorem mcpIsError_finishMcpSimple {α : Type} (label : String) (b : Except JsErr α) :
    mcpIsError (finishMcpSimple label b) = exceptThrew b := by
  cases b <;> rfl

theorem optOr_none_left (b : Option String) : optOr none b = b := rfl

theorem optOr_none_right (a : Option String) : optOr a none = a := by
  cases a <;> rfl

theorem lookup_append (k : String) (l1 l2 : List (String × String)) :
    (l1 ++ l2).lookup k = optOr (l1.lookup k) (l2.lookup k) := by
  induction l1 with
  | nil => simp [List.lookup, optOr_none_left]
  | cons kv l ih =>
      cases kv with
      | mk k1 v1 =>
          cases h : (k == k1) with
          | true => simp [List.lookup, h, optOr]
          | false => simp [List.lookup, h, ih]

theorem lookupStr_self (key : String) (v : Option String) :
    (optParamStr key v).lookup key = strFilterVal v := by
  cases v with
  | none => rfl
  | some s =>
      by_cases h : s = ""
      · simp [optParamStr, strFilterVal, h]
      · simp [optParamStr, strFilterVal, h, List.lookup]

theorem lookupStr_ne (key q : String) (v : Option String) (h : (q == key) = false) :
    (optParamStr key v).lookup q = none := by
  cases v with
  | none => rfl
  | some s =>
      by_cases hs : s = ""
      · simp [optParamStr, hs]
      · simp [optParamStr, hs, List.lookup, h]

theorem lookupNat_self (key : String) (v : Option Nat) :
    (optParamNat key v).lookup key = natFilterVal v := by
  cases v with
  | none => rfl
  | some n =>
      by_cases h : n = 0
      · simp [optParamNat, natFilterVal, h]
      · simp [optParamNat, natFilterVal, h, List.lookup]

theorem lookupNat_ne (key q : String) (v : Option Nat) (h : (q == key) = false) :
    (optParamNat key v).lookup q = none := by
  cases v with
  | none => rfl
  | some n =>
      by_cases hn : n = 0
      · simp [optParamNat, hn]
      · simp [optParamNat, hn, List.lookup, h]

theorem lookupBool_self (key : String) (v : Option Bool) :
    (optParamBool key v).lookup key = boolFilterVal v := by
  cases v with
  | none => rfl
  | some b => simp [optParamBool, boolFilterVal, List.lookup]

theorem lookupBool_ne (key q : String) (v : Option Bool) (h : (q == key) = false) :
    (optParamBool key v).lookup q = none := by
  cases v with
  | none => rfl
  | some b => simp [optParamBool, List.lookup, h]

end ExaMcp

namespace ExaMcp

/-- Matching under the `i` flag only inspects subject characters through
`Char.toLower`, so two subjects that agree after lower-casing match the same
token lists. -/
theorem matchToks_ci_congr : ∀ (ts : List RTok) (s t : List Char),
    s.map Char.toLower = t.map Char.toLower → matchToks true ts s = matchToks true ts t := by
  intro ts
  induction ts with
  | nil => intro s t h; rfl
  | cons tok ts ih =>
      intro s t h
      cases s with
      | nil =>
          cases t with
          | nil => rfl
          | cons d ds => simp at h
      | cons c cs =>
          cases t with
          | nil => simp at h
          | cons d ds =>
              simp only [List.map_cons, List.cons.injEq] at h
              obtain ⟨h1, h2⟩ := h
              cases tok with
              | lit q =>
                  simp only [matchToks, charMatches, if_pos]
                  rw [h1, ih cs ds h2]
              | anyChar =>
                  simp only [matchToks]
                  exact ih cs ds h2

/-- Unanchored search under the `i` flag is likewise invariant under
lower-case-equal subjects. -/
theorem matchFrom_ci_congr : ∀ (s t : List Char),
    s.map Char.toLower = t.map Char.toLower →
    ∀ ts : List RTok, matchFrom true ts s = matchFrom true ts t := by
  intro s
  induction s with
  | nil =>
      intro t h ts
      cases t with
      | nil => rfl
      | cons d ds => simp at h
  | cons c cs ih =>
      intro t h ts
      cases t with
      | nil => simp at h
      | cons d ds =>
          have h' := h
          simp only [List.map_cons, List.cons.injEq] at h'
          obtain ⟨h1, h2⟩ := h'
          simp only [matchFrom]
          rw [matchToks_ci_congr ts (c :: cs) (d :: ds) h, ih ds h2 ts]

/-- Whole-test invariance: `new RegExp(p, 'i').test` cannot distinguish two
subjects that agree up to letter case. -/
theorem jsRegexTest_ci_congr (p : String) (s t : String)
    (h : s.data.map Char.toLower = t.data.map Char.toLower) :
    jsRegexTest p true s = jsRegexTest p true t := by
  unfold jsRegexTest
  cases hc : jsRegexCompile p with
  | none => rfl
  | some pr =>
      cases pr with
      | mk anchored ts =>
          cases anchored with
          | true =>
              show matchToks true ts s.data = matchToks true ts t.data
              exact matchToks_ci_congr ts s.data t.data h
          | false =>
              show matchFrom true ts s.data = matchFrom true ts t.data
              exact matchFrom_ci_congr s.data t.data h ts

/-- Evaluation of `search_webset_items_exa` on a successful page when only a
(non-empty, valid) URL pattern is supplied: the page is filtered by the URL
test, the count is the filtered length, and pagination fields pass through. -/
theorem searchItemsRun_url_case (wsid : String) (f : SearchFilters) (p : String)
    (cur : Option String) (lim : Option Nat) (k e : Option String) (page : ItemsPage)
    (hu : f.urlPattern = some p) (ht : f.titlePattern = none) (hne : p ≠ "")
    (hv : regexValid p = true) :
    (searchItemsRun { websetId := wsid, filters := some f, cursor := cur, limit := lim }
        k e (HttpBehavior.ok page)).2
      = McpOut.ok
          { websetId := wsid, matchingItems := (page.data.filter (urlPatternPred p)).length,
            hasMore := page.hasMore, nextCursor := page.nextCursor,
            filters := some f, items := page.data.filter (urlPatternPred p) } := by
  simp only [searchItemsRun, searchItemsBody, Option.getD_some]
  rw [hu, ht]
  simp [applyUrlFilter, applyTitleFilter, hne, hv, finishMcp]

/-- Evaluation of `search_webset_items_exa` on a successful page when only a
(non-empty, valid) title pattern is supplied. -/
theorem searchItemsRun_title_case (wsid : String) (f : SearchFilters) (p : String)
    (cur : Option String) (lim : Option Nat) (k e : Option String) (page : ItemsPage)
    (hu : f.urlPattern = none) (ht : f.titlePattern = some p) (hne : p ≠ "")
    (hv : regexValid p = true) :
    (searchItemsRun { websetId := wsid, filters := some f, cursor := cur, limit := lim }
        k e (HttpBehavior.ok page)).2
      = McpOut.ok
          { websetId := wsid, matchingItems := (page.data.filter (titlePatternPred p)).length,
            hasMore := page.hasMore, nextCursor := page.nextCursor,
            filters := some f, items := page.data.filter (titlePatternPred p) } := by
  simp only [searchItemsRun, searchItemsBody, Option.getD_some]
  rw [hu, ht]
  simp [applyUrlFilter, applyTitleFilter, hne, hv, finishMcp]

end ExaMcp

namespace ExaMcp

/-- Claim C1: for every modelled operation and every input, the handler
returns exactly one result value (it is a total function into its result
type) and never lets an exception propagate: whatever the single HTTP call
does — resolve, reject with an axios error, or throw anything else, and, for
the search tool, whatever the locally compiled pattern filters do — the
returned value carries the error flag exactly when the try-block threw, the
thrown value having been caught at the handler boundary and converted. -/
theorem claim1_handler_boundary_catches_everything :
    (∀ a k e beh, envIsError (createExportRun a k e beh).2
        = exceptThrew (createExportBody beh)) ∧
    (∀ a k e beh, envIsError (listExportsRun a k e beh).2
        = exceptThrew (listExportsBody beh)) ∧
    (∀ a k e beh, mcpIsError (listItemsRun a k e beh).2
        = exceptThrew (listItemsBody a.websetId beh)) ∧
    (∀ a k e beh, mcpIsError (searchItemsRun a k e beh).2
        = exceptThrew (searchItemsBody a beh)) ∧
    (∀ a k e beh, mcpIsError (createImportRun a k e beh).2
        = exceptThrew (createImportBody beh)) ∧
    (∀ a k e beh, mcpIsError (listImportsRun a k e beh).2
        = exceptThrew (listImportsBody beh)) ∧
    (∀ a k e beh, mcpIsError (createWebhookRun a k e beh).2
        = exceptThrew (createWebhookBody beh)) ∧
    (∀ a k e beh, envIsError (batchUpdateRun a k e beh).2
        = exceptThrew (batchUpdateBody a.itemIds beh)) ∧
    (∀ a k e beh, envIsError (batchDeleteRun a k e beh).2
        = exceptThrew (batchDeleteBody a.itemIds beh)) ∧
    (∀ a k e beh, envIsError (batchVerifyRun a k e beh).2
        = exceptThrew (batchVerifyBody a.itemIds beh)) := by
  refine ⟨?_, ?_, ?_, ?_, ?_, ?_, ?_, ?_, ?_, ?_⟩ <;>
    intro a k e beh <;>
    first
      | exact envIsError_finishEnv _
      | exact mcpIsError_finishMcp _ _
      | exact mcpIsError_finishMcpSimple _ _

/-- Claim C2 counterexample: for `create_import_exa`, an HTTP failure whose
response carries a body with an `error` field of `"boom"` does not produce
the prescribed `success`/`error`/`details` envelope at all — the handler
returns a `content`/`isError` text result embedding only `error.message`,
and the body and its `error` field are ignored. -/
theorem claim2_counterexample :
    (createImportRun { sourceUrl := "https://files.test/a.csv" } none none
        (HttpBehavior.throw (JsErr.axios
          { message := "Request failed with status code 400",
            response := some
              { status := 400,
                data := some { errorField := some "boom", payload := [] } } }))).2
      = McpOut.err "Create import error: Request failed with status code 400" ∧
    mcpErrorEnvelope ((createImportRun { sourceUrl := "https://files.test/a.csv" } none none
        (HttpBehavior.throw (JsErr.axios
          { message := "Request failed with status code 400",
            response := some
              { status := 400,
                data := some { errorField := some "boom", payload := [] } } }))).2)
      = none :=
  ⟨rfl, rfl⟩

/-- Claim C2 amended: when the remote call fails with an HTTP error carrying
a response body, the `addTool`-style operations (export tools and batch item
tools) return exactly `success: false` with `error` equal to the body's
`error` field when that field is a non-empty string (otherwise the transport
error message) and `details` equal to the full body; the webset-item tools
instead return an `isError` text result embedding the HTTP status and the
same error string; and the operation tools (imports, monitors, webhooks,
events) return an `isError` text result embedding only the transport error
message, never the body. -/
theorem claim2_amended :
    (∀ (a : CreateExportArgs) (k e : Option String) (msg : String) (st : Nat) (b : ErrorBody),
      (createExportRun a k e (HttpBehavior.throw (JsErr.axios
          { message := msg, response := some { status := st, data := some b } }))).2
        = EnvResult.failure (jsOrStr b.errorField msg) (some b)) ∧
    (∀ (a : ListExportsArgs) (k e : Option String) (msg : String) (st : Nat) (b : ErrorBody),
      (listExportsRun a k e (HttpBehavior.throw (JsErr.axios
          { message := msg, response := some { status := st, data := some b } }))).2
        = EnvResult.failure (jsOrStr b.errorField msg) (some b)) ∧
    (∀ (a : BatchUpdateArgs) (k e : Option String) (msg : String) (st : Nat) (b : ErrorBody),
      (batchUpdateRun a k e (HttpBehavior.throw (JsErr.axios
          { message := msg, response := some { status := st, data := some b } }))).2
        = EnvResult.failure (jsOrStr b.errorField msg) (some b)) ∧
    (∀ (a : BatchDeleteArgs) (k e : Option String) (msg : String) (st : Nat) (b : ErrorBody),
      (batchDeleteRun a k e (HttpBehavior.throw (JsErr.axios
          { message := msg, response := some { status := st, data := some b } }))).2
        = EnvResult.failure (jsOrStr b.errorField msg) (some b)) ∧
    (∀ (a : BatchVerifyArgs) (k e : Option String) (msg : String) (st : Nat) (b : ErrorBody),
      (batchVerifyRun a k e (HttpBehavior.throw (JsErr.axios
          { message := msg, response := some { status := st, data := some b } }))).2
        = EnvResult.failure (jsOrStr b.errorField msg) (some b)) ∧
    (∀ (a : SearchItemsArgs) (k e : Option String) (msg : String) (st : Nat) (b : ErrorBody),
      (searchItemsRun a k e (HttpBehavior.throw (JsErr.axios
          { message := msg, response := some { status := st, data := some b } }))).2
        = McpOut.err ("Search items error ("
            ++ statusDisplay (some { status := st, data := some b }) ++ "): "
            ++ jsOrStr b.errorField msg)) ∧
    (∀ (a : ListItemsArgs) (k e : Option String) (msg : String) (st : Nat) (b : ErrorBody),
      (listItemsRun a k e (HttpBehavior.throw (JsErr.axios
          { message := msg, response := some { status := st, data := some b } }))).2
        = McpOut.err ("List items error ("
            ++ statusDisplay (some { status := st, data := some b }) ++ "): "
            ++ jsOrStr b.errorField msg)) ∧
    (∀ (a : CreateImportArgs) (k e : Option String) (msg : String) (st : Nat) (b : ErrorBody),
      (createImportRun a k e (HttpBehavior.throw (JsErr.axios
          { message := msg, response := some { status := st, data := some b } }))).2
        = McpOut.err ("Create import error: " ++ msg)) ∧
    (∀ (a : CreateWebhookArgs) (k e : Option String) (msg : String) (st : Nat) (b : ErrorBody),
      (createWebhookRun a k e (HttpBehavior.throw (JsErr.axios
          { message := msg, response := some { status := st, data := some b } }))).2
        = McpOut.err ("Create webhook error: " ++ msg)) :=
  ⟨fun a k e msg st b => rfl, fun a k e msg st b => rfl, fun a k e msg st b => rfl,
   fun a k e msg st b => rfl, fun a k e msg st b => rfl, fun a k e msg st b => rfl,
   fun a k e msg st b => rfl, fun a k e msg st b => rfl, fun a k e msg st b => rfl⟩

/-- Claim C3 counterexample: the request `create_export_exa` issues carries no
`timeout` option at all (the handler calls bare `axios.post`), so it is not
issued with the fixed request timeout. -/
theorem claim3_counterexample :
    ((createExportRun { websetId := "ws1", format := "csv" } (some "cfg-key") (some "env-key")
        (HttpBehavior.ok { id := "exp1", status := "pending" })).1.map HttpRequest.timeout)
      = [none] ∧ (none : Option Nat) ≠ some REQUEST_TIMEOUT :=
  ⟨rfl, by decide⟩

/-- Claim C3 amended: every modelled operation issues exactly one request
whose headers are exactly the handler's literal header object, always
including `x-api-key` resolved as the configured key when it is a non-empty
string, else the environment key when non-empty, else the empty string; the
tools built on a dedicated `axios.create` instance (item, import and webhook
tools) set the fixed request timeout, while the export and batch tools issue
their requests with no timeout option. -/
theorem claim3_amended :
    (∀ (s : String) (ek : Option String),
      resolveApiKey (some s) ek = if s = "" then jsOrStr ek "" else s) ∧
    (∀ ek : Option String, resolveApiKey none ek = jsOrStr ek "") ∧
    (∀ a k e beh, (createExportRun a k e beh).1.map (fun r => (r.headers, r.timeout))
        = [([("accept", "application/json"), ("content-type", "application/json"),
            ("x-api-key", resolveApiKey k e)], none)]) ∧
    (∀ a k e beh, (listExportsRun a k e beh).1.map (fun r => (r.headers, r.timeout))
        = [([("accept", "application/json"), ("x-api-key", resolveApiKey k e)], none)]) ∧
    (∀ a k e beh, (batchUpdateRun a k e beh).1.map (fun r => (r.headers, r.timeout))
        = [([("accept", "application/json"), ("content-type", "application/json"),
            ("x-api-key", resolveApiKey k e)], none)]) ∧
    (∀ a k e beh, (batchDeleteRun a k e beh).1.map (fun r => (r.headers, r.timeout))
        = [([("accept", "application/json"), ("content-type", "application/json"),
            ("x-api-key", resolveApiKey k e)], none)]) ∧
    (∀ a k e beh, (batchVerifyRun a k e beh).1.map (fun r => (r.headers, r.timeout))
        = [([("accept", "application/json"), ("content-type", "application/json"),
            ("x-api-key", resolveApiKey k e)], none)]) ∧
    (∀ a k e beh, (listItemsRun a k e beh).1.map (fun r => (r.headers, r.timeout))
        = [([("accept", "application/json"), ("x-api-key", resolveApiKey k e)],
            some REQUEST_TIMEOUT)]) ∧
    (∀ a k e beh, (searchItemsRun a k e beh).1.map (fun r => (r.headers, r.timeout))
        = [([("accept", "application/json"), ("x-api-key", resolveApiKey k e)],
            some REQUEST_TIMEOUT)]) ∧
    (∀ a k e beh, (createImportRun a k e beh).1.map (fun r => (r.headers, r.timeout))
        = [([("accept", "application/json"), ("content-type", "application/json"),
            ("x-api-key", resolveApiKey k e)], some REQUEST_TIMEOUT)]) ∧
    (∀ a k e beh, (listImportsRun a k e beh).1.map (fun r => (r.headers, r.timeout))
        = [([("accept", "application/json"), ("x-api-key", resolveApiKey k e)],
            some REQUEST_TIMEOUT)]) ∧
    (∀ a k e beh, (createWebhookRun a k e beh).1.map (fun r => (r.headers, r.timeout))
        = [([("accept", "application/json"), ("content-type", "application/json"),
            ("x-api-key", resolveApiKey k e)], some REQUEST_TIMEOUT)]) :=
  ⟨fun s ek => rfl, fun ek => rfl,
   fun a k e beh => rfl, fun a k e beh => rfl, fun a k e beh => rfl, fun a k e beh => rfl,
   fun a k e beh => rfl, fun a k e beh => rfl, fun a k e beh => rfl, fun a k e beh => rfl,
   fun a k e beh => rfl, fun a k e beh => rfl⟩

end ExaMcp

namespace ExaMcp

/-- Claim C4: an argument set that fails the declared zod shape — a required
field missing (`websetId`, `url`, `events`), or an enumerated field
(`format`, nested `verificationStatus`, a webhook event type) outside its
closed set — makes the invocation yield the validation-failure outcome with
zero HTTP requests issued; the listed concrete argument sets all fail
validation for those reasons. -/
theorem claim4_validation_failure_no_request :
    (∀ (raw : CreateExportRaw) (k e : Option String) (beh : HttpBehavior Export),
      parseCreateExport raw = none →
      invokeCreateExport raw k e beh = ([], Invoked.validationError)) ∧
    (∀ (raw : CreateWebhookRaw) (k e : Option String) (beh : HttpBehavior Webhook),
      parseCreateWebhook raw = none →
      invokeCreateWebhook raw k e beh = ([], Invoked.validationError)) ∧
    parseCreateExport { format := some "csv" } = none ∧
    parseCreateExport { websetId := some "ws1", format := some "pdf" } = none ∧
    parseCreateExport
      { websetId := some "ws1", format := some "csv",
        filters := some { verificationStatus := some "maybe" } } = none ∧
    parseCreateWebhook
      { url := some "https://hook.test/w",
        events := some ["webset.created", "webset.exploded"] } = none := by
  refine ⟨?_, ?_, rfl, by decide, by decide, by decide⟩
  · intro raw k e beh h
    unfold invokeCreateExport
    rw [h]
  · intro raw k e beh h
    unfold invokeCreateWebhook
    rw [h]

/-- Witness for claim C4 at a concrete invalid input: an out-of-enum export
format yields the validation outcome and an empty request list. -/
theorem claim4_witness :
    invokeCreateExport { websetId := some "ws1", format := some "pdf" } (some "key") none
        (HttpBehavior.ok { id := "exp1", status := "pending" })
      = ([], Invoked.validationError) :=
  claim4_validation_failure_no_request.1 _ _ _ _ (by decide)

/-- Claim C5: for `search_webset_items_exa` with a (non-empty, valid)
`urlPattern` filter and no title pattern, on a successfully fetched page the
returned `matchingItems` equals the number of items on that page whose `url`
passes the case-insensitive regular-expression test, `items` is exactly the
list of those items, and `hasMore`/`nextCursor` are the server's values
unchanged. -/
theorem claim5_url_filter_count_and_passthrough (wsid : String) (f : SearchFilters)
    (p : String) (cur : Option String) (lim : Option Nat) (k e : Option String)
    (page : ItemsPage) (hu : f.urlPattern = some p) (ht : f.titlePattern = none)
    (hne : p ≠ "") (hv : regexValid p = true) :
    (searchItemsRun { websetId := wsid, filters := some f, cursor := cur, limit := lim }
        k e (HttpBehavior.ok page)).2
      = McpOut.ok
          { websetId := wsid, matchingItems := (page.data.filter (urlPatternPred p)).length,
            hasMore := page.hasMore, nextCursor := page.nextCursor,
            filters := some f, items := page.data.filter (urlPatternPred p) } :=
  searchItemsRun_url_case wsid f p cur lim k e page hu ht hne hv

/-- Witness for claim C5: the spec scenario — a page of five items of which
exactly two match `^https://linkedin\.com` — yields `matchingItems = 2`,
exactly those two items, and the page's `hasMore`/`nextCursor`. -/
theorem claim5_witness :
    (searchItemsRun
        { websetId := "ws1",
          filters := some { urlPattern := some "^https://linkedin\\.com" },
          cursor := none, limit := none } none none
        (HttpBehavior.ok
          { data := [⟨"i1", "https://linkedin.com/in/alice", some "Alice"⟩,
              ⟨"i2", "https://twitter.com/acme", some "Acme"⟩,
              ⟨"i3", "https://linkedin.com/company/beta", none⟩,
              ⟨"i4", "https://example.com/page", some "Page"⟩,
              ⟨"i5", "https://github.com/zeta", some "Zeta"⟩],
            hasMore := true, nextCursor := some "cur2" })).2
      = McpOut.ok
          { websetId := "ws1", matchingItems := 2, hasMore := true, nextCursor := some "cur2",
            filters := some { urlPattern := some "^https://linkedin\\.com" },
            items := [⟨"i1", "https://linkedin.com/in/alice", some "Alice"⟩,
              ⟨"i3", "https://linkedin.com/company/beta", none⟩] } := by
  have h := claim5_url_filter_count_and_passthrough "ws1"
    { urlPattern := some "^https://linkedin\\.com" } "^https://linkedin\\.com"
    none none none none
    { data := [⟨"i1", "https://linkedin.com/in/alice", some "Alice"⟩,
        ⟨"i2", "https://twitter.com/acme", some "Acme"⟩,
        ⟨"i3", "https://linkedin.com/company/beta", none⟩,
        ⟨"i4", "https://example.com/page", some "Page"⟩,
        ⟨"i5", "https://github.com/zeta", some "Zeta"⟩],
      hasMore := true, nextCursor := some "cur2" }
    rfl rfl (by decide) (by decide)
  exact h.trans (by decide)

/-- Claim C6: on a successful response, `list_exports_exa` reports the page
data, the server's pagination fields, and a summary whose `total` is the page
length and whose per-status counts are the number of export jobs of each
status; in particular the spec scenario of three jobs with statuses
`completed`, `pending`, `failed` gives the summary `(3, 1, 1, 0, 1)`. -/
theorem claim6_export_summary_counts :
    (∀ (a : ListExportsArgs) (k e : Option String) (page : ExportsPage),
      (listExportsRun a k e (HttpBehavior.ok page)).2
        = EnvResult.success
            { data := page.data, hasMore := page.hasMore, nextCursor := page.nextCursor,
              summary :=
                { total := page.data.length,
                  completed := page.data.countP (fun ex => ex.status == "completed"),
                  pending := page.data.countP (fun ex => ex.status == "pending"),
                  processing := page.data.countP (fun ex => ex.status == "processing"),
                  failed := page.data.countP (fun ex => ex.status == "failed") } }) ∧
    (listExportsRun { websetId := "ws1", limit := 20 } none none
        (HttpBehavior.ok
          { data := [⟨"e1", "completed"⟩, ⟨"e2", "pending"⟩, ⟨"e3", "failed"⟩],
            hasMore := false, nextCursor := none })).2
      = EnvResult.success
          { data := [⟨"e1", "completed"⟩, ⟨"e2", "pending"⟩, ⟨"e3", "failed"⟩],
            hasMore := false, nextCursor := none,
            summary :=
              { total := 3, completed := 1, pending := 1, processing := 0,
                failed := 1 } } := by
  constructor
  · intro a k e page
    simp [listExportsRun, finishEnv, listExportsBody, exportSummary,
      List.countP_eq_length_filter]
  · decide

/-- Claim C7: each batch operation issues exactly one HTTP request per
invocation whatever the number of item identifiers, and on any successful
response — independent of the response data — its message reports exactly
the number of identifiers submitted. -/
theorem claim7_batch_single_request_reported_count :
    (∀ (a : BatchUpdateArgs) (k e : Option String) (beh : HttpBehavior OpaqueJson),
      (batchUpdateRun a k e beh).1.length = 1) ∧
    (∀ (a : BatchUpdateArgs) (k e : Option String) (d : OpaqueJson),
      (batchUpdateRun a k e (HttpBehavior.ok d)).2
        = EnvResult.success (d, "Successfully updated " ++ toString a.itemIds.length
            ++ " items")) ∧
    (∀ (a : BatchDeleteArgs) (k e : Option String) (beh : HttpBehavior OpaqueJson),
      (batchDeleteRun a k e beh).1.length = 1) ∧
    (∀ (a : BatchDeleteArgs) (k e : Option String) (d : OpaqueJson),
      (batchDeleteRun a k e (HttpBehavior.ok d)).2
        = EnvResult.success (d, "Successfully deleted " ++ toString a.itemIds.length
            ++ " items")) ∧
    (∀ (a : BatchVerifyArgs) (k e : Option String) (beh : HttpBehavior OpaqueJson),
      (batchVerifyRun a k e beh).1.length = 1) ∧
    (∀ (a : BatchVerifyArgs) (k e : Option String) (d : OpaqueJson),
      (batchVerifyRun a k e (HttpBehavior.ok d)).2
        = EnvResult.success (d, "Successfully updated verification status for "
            ++ toString a.itemIds.length ++ " items")) :=
  ⟨fun a k e beh => rfl, fun a k e d => rfl, fun a k e beh => rfl,
   fun a k e d => rfl, fun a k e beh => rfl, fun a k e d => rfl⟩

end ExaMcp

namespace ExaMcp

/-- Claim C8 counterexample: `list_webset_items_exa` invoked with the
supplied filter `type: ""` issues its one request with an empty query string
— the supplied `type` filter does not appear serialized, because the builder
tests JavaScript truthiness (`if (filters.type)`) and the empty string is
falsy. -/
theorem claim8_counterexample :
    ((listItemsRun { websetId := "ws1", type := some "" } none none
        (HttpBehavior.ok { data := [], hasMore := false, nextCursor := none })).1.map
      (fun r => r.params)) = [[]] ∧
    ((listItemsRun { websetId := "ws1", type := some "" } none none
        (HttpBehavior.ok { data := [], hasMore := false, nextCursor := none })).1.map
      (fun r => r.params.lookup "type")) = [none] :=
  ⟨rfl, rfl⟩

/-- Claim C8 amended: for the list operations, each optional argument
contributes its query parameter exactly when its value is truthy in the
JavaScript sense — unset arguments are omitted, but so are supplied empty
strings and a supplied `limit` of `0`; the boolean `hasEnrichedData` is
tested against `undefined` explicitly, so a supplied `false` does appear as
`"false"`.  `list_exports_exa` always sends `limit` (its zod default `20`
when the caller leaves it unset) and sends `cursor` only when truthy. -/
theorem claim8_amended :
    (∀ a : ListItemsArgs,
      (listItemsParams a).lookup "cursor" = strFilterVal a.cursor ∧
      (listItemsParams a).lookup "limit" = natFilterVal a.limit ∧
      (listItemsParams a).lookup "type" = strFilterVal a.type ∧
      (listItemsParams a).lookup "verificationStatus" = strFilterVal a.verificationStatus ∧
      (listItemsParams a).lookup "hasEnrichedData" = boolFilterVal a.hasEnrichedData ∧
      (listItemsParams a).lookup "createdAfter" = strFilterVal a.createdAfter ∧
      (listItemsParams a).lookup "createdBefore" = strFilterVal a.createdBefore ∧
      (listItemsParams a).lookup "updatedAfter" = strFilterVal a.updatedAfter ∧
      (listItemsParams a).lookup "updatedBefore" = strFilterVal a.updatedBefore) ∧
    (∀ a : ListImportsArgs,
      (listImportsParams a).lookup "status" = strFilterVal a.status ∧
      (listImportsParams a).lookup "websetId" = strFilterVal a.websetId ∧
      (listImportsParams a).lookup "cursor" = strFilterVal a.cursor ∧
      (listImportsParams a).lookup "limit" = natFilterVal a.limit) ∧
    (∀ a : ListExportsArgs,
      (listExportsParams a).lookup "limit" = some (toString a.limit) ∧
      (listExportsParams a).lookup "cursor" = strFilterVal a.cursor) ∧
    (∀ (w : String) (c : Option String),
      parseListExports { websetId := some w, limit := none, cursor := c }
        = some { websetId := w, limit := 20, cursor := c }) := by
  refine ⟨?_, ?_, ?_, ?_⟩
  · intro a
    refine ⟨?_, ?_, ?_, ?_, ?_, ?_, ?_, ?_, ?_⟩ <;>
      simp [listItemsParams, lookup_append, lookupStr_self, lookupStr_ne,
        lookupNat_self, lookupNat_ne, lookupBool_self, lookupBool_ne,
        optOr_none_left, optOr_none_right]
  · intro a
    refine ⟨?_, ?_, ?_, ?_⟩ <;>
      simp [listImportsParams, lookup_append, lookupStr_self, lookupStr_ne,
        lookupNat_self, lookupNat_ne, optOr_none_left, optOr_none_right]
  · intro a
    constructor
    · simp [listExportsParams, List.lookup]
    · simp [listExportsParams, List.lookup, lookup_append, lookupStr_self,
        optOr_none_left, optOr_none_right]
  · intro w c
    rfl

end ExaMcp

namespace ExaMcp

/-- Claim C9 counterexample: `search_webset_items_exa` with the supplied title
pattern `""` returns an item whose title is absent — the handler tests
JavaScript truthiness of the pattern (`if (filters?.titlePattern)`), so the
empty pattern skips the title filter entirely and the titleless item passes
through. -/
theorem claim9_counterexample :
    (searchItemsRun
        { websetId := "ws1", filters := some { titlePattern := some "" },
          cursor := none, limit := none } none none
        (HttpBehavior.ok
          { data := [⟨"i1", "https://a.test", none⟩],
            hasMore := false, nextCursor := none })).2
      = McpOut.ok
          { websetId := "ws1", matchingItems := 1, hasMore := false, nextCursor := none,
            filters := some { titlePattern := some "" },
            items := [⟨"i1", "https://a.test", none⟩] } := by
  decide

/-- Claim C9 amended: whenever a non-empty `titlePattern` filter is supplied
to `search_webset_items_exa` and the call returns a success payload, every
returned item has a present title — items whose `title` is absent or null
fail the `item.title && titleRegex.test(item.title)` test whatever the
(non-empty) pattern is. -/
theorem claim9_title_filter_excludes_missing (a : SearchItemsArgs) (p : String)
    (k e : Option String) (beh : HttpBehavior ItemsPage) (out : SearchItemsOut)
    (htp : (a.filters.getD {}).titlePattern = some p) (hp : p ≠ "")
    (hok : (searchItemsRun a k e beh).2 = McpOut.ok out) :
    out.items.all (fun it => it.title.isSome) = true := by
  cases beh with
  | throw er =>
      simp [searchItemsRun, finishMcp, searchItemsBody] at hok
  | ok page =>
      simp only [searchItemsRun, searchItemsBody] at hok
      cases hu : applyUrlFilter (a.filters.getD {}).urlPattern page.data with
      | error er =>
          rw [hu] at hok
          simp [finishMcp] at hok
      | ok items1 =>
          rw [hu, htp] at hok
          by_cases hv : regexValid p = true
          · simp only [applyTitleFilter, if_neg hp, if_pos hv, finishMcp] at hok
            rw [McpOut.ok.injEq] at hok
            subst hok
            simp only [List.all_eq_true]
            intro it hit
            rw [List.mem_filter] at hit
            obtain ⟨_, hpred⟩ := hit
            unfold titlePatternPred at hpred
            cases hti : it.title with
            | none => rw [hti] at hpred; cases hpred
            | some t => simp [hti]
          · simp only [applyTitleFilter, if_neg hp, if_neg hv, finishMcp] at hok
            cases hok

/-- Witness for (amended) claim C9 at a concrete input: with title pattern
`"a"` over a page holding one titled and one titleless item, the returned
payload's items all have a present title. -/
theorem claim9_witness :
    ({ websetId := "ws1", matchingItems := 1, hasMore := false, nextCursor := none,
       filters := some { titlePattern := some "a" },
       items := [⟨"i1", "https://a.test", some "Anna"⟩] } : SearchItemsOut).items.all
      (fun it => it.title.isSome) = true :=
  claim9_title_filter_excludes_missing
    { websetId := "ws1", filters := some { titlePattern := some "a" },
      cursor := none, limit := none } "a" none none
    (HttpBehavior.ok
      { data := [⟨"i1", "https://a.test", some "Anna"⟩, ⟨"i2", "https://b.test", none⟩],
        hasMore := false, nextCursor := none })
    { websetId := "ws1", matchingItems := 1, hasMore := false, nextCursor := none,
      filters := some { titlePattern := some "a" },
      items := [⟨"i1", "https://a.test", some "Anna"⟩] }
    rfl (by decide) (by decide)

/-- Claim C10: the URL and title pattern filters of `search_webset_items_exa`
are case-insensitive regular-expression tests — an item whose `url` (or
present, non-empty `title`) agrees with a matching value up to letter case is
still included in the returned items of a successful run. -/
theorem claim10_case_insensitive_patterns :
    (∀ (wsid : String) (f : SearchFilters) (p : String) (cur : Option String)
        (lim : Option Nat) (k e : Option String) (page : ItemsPage) (it : WebsetItem)
        (u : String),
      f.urlPattern = some p → f.titlePattern = none → p ≠ "" → regexValid p = true →
      it ∈ page.data → jsRegexTest p true u = true →
      it.url.data.map Char.toLower = u.data.map Char.toLower →
      it ∈ mcpItems (searchItemsRun
        { websetId := wsid, filters := some f, cursor := cur, limit := lim }
        k e (HttpBehavior.ok page)).2) ∧
    (∀ (wsid : String) (f : SearchFilters) (p : String) (cur : Option String)
        (lim : Option Nat) (k e : Option String) (page : ItemsPage) (it : WebsetItem)
        (t v : String),
      f.urlPattern = none → f.titlePattern = some p → p ≠ "" → regexValid p = true →
      it ∈ page.data → it.title = some t → t ≠ "" → jsRegexTest p true v = true →
      t.data.map Char.toLower = v.data.map Char.toLower →
      it ∈ mcpItems (searchItemsRun
        { websetId := wsid, filters := some f, cursor := cur, limit := lim }
        k e (HttpBehavior.ok page)).2) := by
  constructor
  · intro wsid f p cur lim k e page it u hu ht hp hv hmem htest hcase
    rw [searchItemsRun_url_case wsid f p cur lim k e page hu ht hp hv]
    simp only [mcpItems]
    rw [List.mem_filter]
    refine ⟨hmem, ?_⟩
    unfold urlPatternPred
    rw [jsRegexTest_ci_congr p it.url u hcase]
    exact htest
  · intro wsid f p cur lim k e page it t v hu ht hp hv hmem hti htne htest hcase
    rw [searchItemsRun_title_case wsid f p cur lim k e page hu ht hp hv]
    simp only [mcpItems]
    rw [List.mem_filter]
    refine ⟨hmem, ?_⟩
    unfold titlePatternPred
    rw [hti]
    have h1 : (t == "") = false := by
      cases hq : (t == "")
      · rfl
      · exact absurd (by simpa using hq) htne
    show (!(t == "") && jsRegexTest p true t) = true
    rw [h1]
    simp only [Bool.not_false, Bool.true_and]
    rw [jsRegexTest_ci_congr p t v hcase]
    exact htest

/-- Witness for claim C10 at a concrete input: the upper-cased URL
`https://LINKEDIN.com/in/bob` is kept by the filter `^https://linkedin\.com`
because the lower-cased value matches. -/
theorem claim10_witness :
    (⟨"i1", "https://LINKEDIN.com/in/bob", some "Bob"⟩ : WebsetItem) ∈
      mcpItems (searchItemsRun
        { websetId := "ws1",
          filters := some { urlPattern := some "^https://linkedin\\.com" },
          cursor := none, limit := none } none none
        (HttpBehavior.ok
          { data := [⟨"i1", "https://LINKEDIN.com/in/bob", some "Bob"⟩],
            hasMore := false, nextCursor := none })).2 :=
  claim10_case_insensitive_patterns.1 "ws1"
    { urlPattern := some "^https://linkedin\\.com" } "^https://linkedin\\.com"
    none none none none
    { data := [⟨"i1", "https://LINKEDIN.com/in/bob", some "Bob"⟩],
      hasMore := false, nextCursor := none }
    ⟨"i1", "https://LINKEDIN.com/in/bob", some "Bob"⟩ "https://linkedin.com/in/bob"
    rfl rfl (by decide) (by decide) (by decide) (by decide) (by decide)

end ExaMcp
